import Mathlib

/-!
Verification of the Output State Machine and Trigger Evaluation Engine of
`mycodo/outputs/base_output.py` (class `AbstractOutput`).

The embedding models timestamps and durations as rationals (`ℚ`): the source
uses `datetime`/`timedelta` values and float seconds, and every operation the
code performs on them (addition, subtraction, absolute value, comparison) is
the corresponding rational operation.  `Option ℚ` models fields that Python
holds as `None`-or-value; for `output_off_until`, `none` stands for the two
falsy Python values (`None` from `__init__`, `0` from `setup_on_off_output`),
since the code only ever tests it by truthiness before comparing.

The external driver (`output_switch` / `is_on` / `is_setup`, implemented by
subclasses) is modelled by a `physOn` flag updated by successful switch calls,
an `isSetup` flag, and a per-call `driverOk` oracle: when `driverOk` is false,
the `output_switch` call raises, which propagates out of `output_on_off`
(the source wraps no `try` around driver calls).  Side effects are reified:
the outcome records every attempted driver call, every duration sample handed
to the influxdb writer thread, and whether (and with which amount)
`check_triggers` was invoked.
-/

/-- The `state` argument of `output_on_off`: a Python string, int or bool.
Python equality makes `1 == True` and `0 == False`. -/
inductive StateArg where
  | pstr (s : String)
  | pint (n : Int)
  | pbool (b : Bool)
deriving Repr, DecidableEq

/-- `state in ['on', 1, True]` under Python equality. -/
def StateArg.isOn : StateArg → Bool
  | .pstr s => s == "on"
  | .pint n => n == 1
  | .pbool b => b

/-- `state in ['off', 0, False]` under Python equality. -/
def StateArg.isOff : StateArg → Bool
  | .pstr s => s == "off"
  | .pint n => n == 0
  | .pbool b => !b

/-- Per-output configuration read by `output_on_off` (lines 56-62 and the
`OUTPUT_INFORMATION` dict): capability membership tests and the force flag. -/
structure OutputConfig where
  /-- `self.output_type in self.output_types['volume']` -/
  capVolume : Bool
  /-- `self.output_type in self.output_types['pwm']` -/
  capPwm : Bool
  /-- `self.output_type in self.output_types['on_off']` -/
  capOnOff : Bool
  /-- `'output_types' in self.OUTPUT_INFORMATION` -/
  infoHasOutputTypes : Bool
  /-- `'on_off' in self.OUTPUT_INFORMATION['output_types']` -/
  infoOnOff : Bool
  /-- `self.output_force_command` -/
  forceCommand : Bool
deriving Repr, DecidableEq

/-- The mutable runtime state of one output, plus the driver-owned facts
(`isSetup` for `is_setup()`, `physOn` for `is_on()` on an on/off output). -/
structure OutputState where
  isSetup : Bool
  physOn : Bool
  output_on_until : ℚ
  output_off_until : Option ℚ
  output_last_duration : ℚ
  output_on_duration : Bool
  output_off_triggered : Bool
  output_time_turned_on : Option ℚ
deriving Repr, DecidableEq

/-- `setup_on_off_output` (lines 141-149): reset of the runtime fields.
`output_off_until` is set to the falsy `0`, modelled as `none`. -/
def setup_on_off_output (isSetup physOn : Bool) (now : ℚ) : OutputState :=
  { isSetup := isSetup
    physOn := physOn
    output_on_until := now
    output_off_until := none
    output_last_duration := 0
    output_on_duration := false
    output_off_triggered := false
    output_time_turned_on := none }

/-- One attempted `output_switch` driver call with its arguments. -/
structure SwitchCall where
  state : String
  output_type : Option String
  amount : Option ℚ
deriving Repr, DecidableEq

/-- One value handed to the influxdb writer thread (`write_influxdb_value`):
signed seconds, the fixed measure `duration_time` / channel 0, and the
timestamp keyword argument. -/
structure DurationSample where
  value : ℚ
  measure : String
  channel : Nat
  timestamp : ℚ
deriving Repr, DecidableEq

/-- The human message of a return, abstracted to its constructor and numeric
payload (the source formats these into strings). -/
inductive Msg where
  | empty
  | badState
  | notSetup
  | lockout (off_sec : ℚ)
  | volCmd (v : ℚ)
  | pwmCmd (dc : ℚ)
  | rearm (on_amt remain beenon newon : ℚ)
  | convert (dur : ℚ)
  | onFor (dur : ℚ)
  | alreadyOn
  | onAt (t : ℚ)
  | offAt
deriving Repr, DecidableEq

/-- A normally returning `output_on_off` call: final state, return code and
message, the driver calls made, the duration samples emitted, and
`some amount` when `check_triggers(amount=amount)` was invoked. -/
structure CallOk where
  st : OutputState
  code : Nat
  msg : Msg
  switches : List SwitchCall
  samples : List DurationSample
  triggers_checked : Option ℚ
deriving Repr, DecidableEq

/-- Outcome of a call: normal return, or an exception raised by the driver
propagating out with the state as mutated so far and the calls attempted. -/
inductive CallOutcome where
  | ok (r : CallOk)
  | raised (st : OutputState) (switches : List SwitchCall)
deriving Repr, DecidableEq

/-- Final state of a call, returned or raised. -/
def outcomeState : CallOutcome → OutputState
  | .ok r => r.st
  | .raised st _ => st

/-- Return code of a normally returning call. -/
def outcomeCode : CallOutcome → Option Nat
  | .ok r => some r.code
  | .raised _ _ => none

/-- The driver calls attempted during a call. -/
def outcomeSwitches : CallOutcome → List SwitchCall
  | .ok r => r.switches
  | .raised _ sw => sw

/-- The duration samples handed to the influxdb writer during a call. -/
def outcomeSamples : CallOutcome → List DurationSample
  | .ok r => r.samples
  | .raised _ _ => []

/-- `some amount` when the call invoked `check_triggers(amount=amount)`. -/
def outcomeTriggers : CallOutcome → Option ℚ
  | .ok r => r.triggers_checked
  | .raised _ _ => none

/-- `self.output_off_until and self.output_off_until > current_time`
(line 219): truthiness then comparison. -/
def offUntilFuture : Option ℚ → ℚ → Bool
  | none, _ => false
  | some t, now => decide (now < t)

/-- `(self.output_off_until - current_time).total_seconds()` (line 220). -/
def lockSeconds : Option ℚ → ℚ → ℚ
  | none, _ => 0
  | some t, now => t - now

/-- The line-410 guard reified: `some amount` when `trigger_conditionals`
is truthy (so `check_triggers(amount=amount)` will run), else `none`. -/
def trigOpt (trigger_conditionals : Bool) (amount : ℚ) : Option ℚ :=
  if trigger_conditionals then some amount else none

/-- `output_type in ['sec', None]` (lines 249, 336). -/
def secOrNone (ot : Option String) : Bool :=
  ot == some "sec" || ot == none

/-- The OFF-branch bookkeeping (lines 372-397): if an indefinite run or a
duration run was active, compute the value and timestamp of the single
duration sample (the indefinite computation overwrites the duration one when
both are active, exactly as the two sequential `if` blocks do) and clear the
corresponding mode fields.  Returns the samples emitted and the new state. -/
def offReconcile (s1 : OutputState) (current_time utc_now : ℚ) :
    List DurationSample × OutputState :=
  if s1.output_time_turned_on ≠ none ∨ s1.output_on_duration = true then
    let step1 : ℚ × ℚ × OutputState :=
      if s1.output_on_duration then
        let remaining : ℚ :=
          if current_time < s1.output_on_until then s1.output_on_until - current_time else 0
        let dsec : ℚ := |s1.output_last_duration| - remaining
        let dsigned : ℚ := if s1.output_last_duration < 0 then -dsec else dsec
        (dsigned, utc_now - dsec,
          { s1 with output_on_duration := false, output_on_until := current_time })
      else (0, 0, s1)
    let step2 : ℚ × ℚ × OutputState :=
      match step1.2.2.output_time_turned_on with
      | some t0 =>
        let dsec : ℚ := current_time - t0
        (dsec, utc_now - dsec, { step1.2.2 with output_time_turned_on := none })
      | none => step1
    ([⟨step2.1, "duration_time", 0, step2.2.1⟩], step2.2.2)
  else ([], s1)

/-- Lines 248-330: the ON-with-duration block (`output_type` in
`['sec', None]`, on/off capable, `amount != 0`).  `output_is_on` was sampled
at line 198, which here equals `s.physOn`.  The re-arm and convert sub-cases
return early (so never reach the line-410 trigger check); the fresh-on
sub-case calls the driver and falls through with `trig`. -/
def secDurationBranch (s : OutputState) (driverOk : Bool) (amount min_off : ℚ)
    (trig : Option ℚ) (current_time utc_now : ℚ) : CallOutcome :=
  -- lines 253-254: min_off truthy sets off_until before anything else
  let s0 : OutputState :=
    if min_off ≠ 0 then
      { s with output_off_until := some (current_time + |amount| + min_off) }
    else s
  -- lines 257-301: already on for an amount: re-arm, early return
  if s.physOn = true ∧ s0.output_on_duration = true then
    let remaining : ℚ :=
      if current_time < s0.output_on_until then s0.output_on_until - current_time else 0
    let time_on : ℚ := |s0.output_last_duration| - remaining
    let s1 : OutputState :=
      { s0 with output_on_until := current_time + |amount|,
                output_last_duration := amount }
    let samples : List DurationSample :=
      if 0 < time_on then
        -- line 285: the sign check reads output_last_duration after
        -- the line-278 assignment, i.e. the new amount
        let duration_on : ℚ :=
          if s1.output_last_duration < 0 then -time_on else time_on
        [⟨duration_on, "duration_time", 0, utc_now - |duration_on|⟩]
      else []
    .ok ⟨s1, 0, .rearm (|s0.output_last_duration|) remaining time_on (|amount|),
      [], samples, none⟩
  -- lines 304-316: on without an amount: convert in place, early return
  else if s.physOn = true ∧ s0.output_on_duration = false then
    .ok ⟨{ s0 with output_on_duration := true,
                   output_on_until := current_time + |amount|,
                   output_last_duration := amount },
      0, .convert (|amount|), [], [], none⟩
  -- lines 318-330: not on: switch on, set the window, fall through
  else
    if driverOk then
      .ok ⟨{ s0 with physOn := true,
                     output_on_until := current_time + |amount|,
                     output_last_duration := amount,
                     output_on_duration := true },
        0, .onFor (|amount|), [⟨"on", some "sec", some amount⟩], [], trig⟩
    else .raised s0 [⟨"on", some "sec", some amount⟩]

/-- Lines 333-356: the plain-ON block (no duration).  Rejects when already on
and not force-commandable; otherwise records `time_turned_on` (line 350,
before the driver call) and switches the output on. -/
def plainOnBranch (cfg : OutputConfig) (s : OutputState) (driverOk : Bool)
    (trig : Option ℚ) (current_time : ℚ) : CallOutcome :=
  if s.physOn = true ∧ cfg.forceCommand = false then
    .ok ⟨s, 1, .alreadyOn, [], [], none⟩
  else
    let s1 : OutputState :=
      match s.output_time_turned_on with
      | none => { s with output_time_turned_on := some current_time }
      | some _ => s
    if driverOk then
      .ok ⟨{ s1 with physOn := true }, 0,
        .onAt (s1.output_time_turned_on.getD current_time),
        [⟨"on", some "sec", none⟩], [], trig⟩
    else .raised s1 [⟨"on", some "sec", none⟩]

/-- Lines 361-408: the OFF block: unconditional driver OFF, then the
bookkeeping of `offReconcile`, then `off_triggered = False`. -/
def offBranch (s : OutputState) (output_type : Option String) (driverOk : Bool)
    (trig : Option ℚ) (current_time utc_now : ℚ) : CallOutcome :=
  if driverOk then
    let s1 : OutputState := { s with physOn := false }
    let pr := offReconcile s1 current_time utc_now
    .ok ⟨{ pr.2 with output_off_triggered := false }, 0, .offAt,
      [⟨"off", output_type, none⟩], pr.1, trig⟩
  else .raised s [⟨"off", output_type, none⟩]

/-- `AbstractOutput.output_on_off` (lines 156-413), as a function of the
configuration, the current state, the per-call driver oracle, the call
arguments, and the two clocks sampled during the call
(`datetime.datetime.now()` once at line 193, `datetime.datetime.utcnow()`
at sample-emission time). -/
def output_on_off (cfg : OutputConfig) (s : OutputState) (driverOk : Bool)
    (state : StateArg) (output_type : Option String) (amount_arg : Option ℚ)
    (min_off : ℚ) (trigger_conditionals : Bool)
    (current_time utc_now : ℚ) : CallOutcome :=
  -- line 186: state not in ['on', 1, True, 'off', 0, False]
  if ¬(state.isOn = true ∨ state.isOff = true) then
    .ok ⟨s, 1, .badState, [], [], none⟩
  else
    -- line 195: amount defaults to 0 when None
    let amount : ℚ := amount_arg.getD 0
    let trig : Option ℚ := trigOpt trigger_conditionals amount
    -- line 201: not set up
    if s.isSetup = false then .ok ⟨s, 1, .notSetup, [], [], none⟩
    else if state.isOn then
      -- lines 212-228: minimum-off interlock gate, only for output_type 'on_off'
      if output_type = some "on_off" ∧ cfg.infoHasOutputTypes = true ∧
          s.physOn = false ∧ offUntilFuture s.output_off_until current_time = true then
        .ok ⟨s, 1, .lockout (lockSeconds s.output_off_until current_time), [], [], none⟩
      -- lines 231-237: volume
      else if output_type = some "vol" ∧ cfg.capVolume = true then
        if driverOk then
          .ok ⟨{ s with physOn := true }, 0, .volCmd amount,
            [⟨"on", some "vol", some amount⟩], [], trig⟩
        else .raised s [⟨"on", some "vol", some amount⟩]
      -- lines 240-246: pwm
      else if output_type = some "pwm" ∧ cfg.capPwm = true then
        if driverOk then
          .ok ⟨{ s with physOn := true }, 0, .pwmCmd amount,
            [⟨"on", some "pwm", some amount⟩], [], trig⟩
        else .raised s [⟨"on", some "pwm", some amount⟩]
      -- lines 248-330: on/off with a duration
      else if secOrNone output_type = true ∧ cfg.capOnOff = true ∧ amount ≠ 0 then
        secDurationBranch s driverOk amount min_off trig current_time utc_now
      -- lines 333-356: plain on, no duration
      else if cfg.infoHasOutputTypes = true ∧ cfg.infoOnOff = true ∧
          amount = 0 ∧ secOrNone output_type = true then
        plainOnBranch cfg s driverOk trig current_time
      -- no dispatch branch matched: fall through with msg still ''
      else
        .ok ⟨s, 0, .empty, [], [], trig⟩
    else
      offBranch s output_type driverOk trig current_time utc_now

/-- One row of the persisted `Trigger` table, restricted to the columns
`check_triggers` reads. -/
structure Trigger where
  unique_id : String
  name : String
  trigger_type : String
  unique_id_1 : String
  is_activated : Bool
  output_state : String
  output_duration : ℚ
  output_duty_cycle : ℚ
deriving Repr, DecidableEq

/-- The value of `self.output_state()` read by the pwm trigger loop
(line 511): the string `'off'` or a numeric duty cycle. -/
inductive DutyVal where
  | off
  | num (v : ℚ)
deriving Repr, DecidableEq

/-- One `self.control.trigger_all_actions(...)` dispatch: the rule it fires
and the rule kind named in the message. -/
structure Dispatch where
  trigger_id : String
  output_state : String
deriving Repr, DecidableEq

/-- The eight on-duration rule kinds the first filter admits when the output
reports ON (lines 431-439). -/
def onDurationKinds : List String :=
  ["on_duration_none", "on_duration_any", "on_duration_none_any",
   "on_duration_equal", "on_duration_greater_than",
   "on_duration_equal_greater_than", "on_duration_less_than",
   "on_duration_equal_less_than"]

/-- The eight-way `or_` of lines 441-479: note `amount == 0.0` and
`bool(amount)` are evaluated in Python on the float `amount` and enter the
clause as constants. -/
def onDurationMatch (amount : ℚ) (t : Trigger) : Bool :=
  (t.output_state == "on_duration_none" && amount == 0)
  || (t.output_state == "on_duration_any" && amount != 0)
  || (t.output_state == "on_duration_none_any")
  || (t.output_state == "on_duration_equal" && t.output_duration == amount)
  || (t.output_state == "on_duration_greater_than" && decide (t.output_duration < amount))
  || (t.output_state == "on_duration_equal_greater_than" && decide (t.output_duration ≤ amount))
  || (t.output_state == "on_duration_less_than" && decide (amount < t.output_duration))
  || (t.output_state == "on_duration_equal_less_than" && decide (amount ≤ t.output_duration))

/-- The pwm trigger condition of lines 513-529. -/
def pwmMatch (duty : DutyVal) (t : Trigger) : Bool :=
  match duty with
  | .off =>
      (t.output_state == "equal" && t.output_duty_cycle == 0)
      || (t.output_state == "below" && t.output_duty_cycle != 0)
  | .num v =>
      (t.output_state == "above" && decide (t.output_duty_cycle < v))
      || (t.output_state == "below" && decide (v < t.output_duty_cycle))
      || (t.output_state == "equal" && v == t.output_duty_cycle)

/-- `AbstractOutput.check_triggers` (lines 415-547): the rule-store query and
match logic, returning the list of action dispatches in loop order.  `db` is
the `Trigger` table, `self_id` is `self.unique_id`, `is_on` the truthiness of
`self.is_on()` at line 430, `duty` the `self.output_state()` value read in
the pwm loop. -/
def check_triggers (db : List Trigger) (self_id : String) (is_on : Bool)
    (duty : DutyVal) (amount : ℚ) : List Dispatch :=
  let base := db.filter fun t =>
    t.trigger_type == "trigger_output" && t.unique_id_1 == self_id && t.is_activated
  let sel :=
    if is_on then
      (base.filter fun t => onDurationKinds.contains t.output_state).filter
        (onDurationMatch amount)
    else base.filter fun t => t.output_state == "off"
  let onOffDispatches := sel.map fun t => Dispatch.mk t.unique_id t.output_state
  let pwmBase := db.filter fun t =>
    t.trigger_type == "trigger_output_pwm" && t.unique_id_1 == self_id && t.is_activated
  let pwmDispatches :=
    (pwmBase.filter (pwmMatch duty)).map fun t => Dispatch.mk t.unique_id t.output_state
  onOffDispatches ++ pwmDispatches

/-- The arguments of one `output_on_off` call in a trace, with that call's
clock readings and driver oracle. -/
structure CallArgs where
  driverOk : Bool
  state : StateArg
  output_type : Option String
  amount_arg : Option ℚ
  min_off : ℚ
  trigger_conditionals : Bool
  current_time : ℚ
  utc_now : ℚ
deriving Repr, DecidableEq

/-- The state after one call, whether it returned or raised. -/
def stepState (cfg : OutputConfig) (s : OutputState) (a : CallArgs) : OutputState :=
  outcomeState (output_on_off cfg s a.driverOk a.state a.output_type a.amount_arg
    a.min_off a.trigger_conditionals a.current_time a.utc_now)

/-- The state after a sequence of calls. -/
def runTrace (cfg : OutputConfig) (s : OutputState) : List CallArgs → OutputState
  | [] => s
  | a :: rest => runTrace cfg (stepState cfg s a) rest

/-- The mutual-exclusion property of §3 of the spec: duration mode
(`output_on_duration`) and indefinite mode (`output_time_turned_on` set)
do not hold simultaneously. -/
def modesExclusive (s : OutputState) : Prop :=
  ¬(s.output_on_duration = true ∧ s.output_time_turned_on ≠ none)

instance (s : OutputState) : Decidable (modesExclusive s) := by
  unfold modesExclusive; infer_instance

/-- A call is mode-safe in state `s` when it is not one of the two request
shapes that leave both modes set: a duration-ON (`sec`/`None`, nonzero
amount) issued while `output_time_turned_on` is set, or a plain ON (zero
amount) issued while `output_on_duration` is set. -/
def safeStep (s : OutputState) (a : CallArgs) : Prop :=
  (a.state.isOn = true ∧ secOrNone a.output_type = true) →
    ((a.amount_arg.getD 0 ≠ 0 → s.output_time_turned_on = none) ∧
     (a.amount_arg.getD 0 = 0 → s.output_on_duration = false))

/-- Every call of the trace is mode-safe in the state it runs in. -/
def safeTrace (cfg : OutputConfig) (s : OutputState) : List CallArgs → Prop
  | [] => True
  | a :: rest => safeStep s a ∧ safeTrace cfg (stepState cfg s a) rest

/-- `output_sec_currently_on` (lines 549-563). -/
def output_sec_currently_on (s : OutputState) (now : ℚ) : ℚ :=
  if s.physOn = false then 0
  else if s.output_on_duration then
    let left : ℚ := if now < s.output_on_until then s.output_on_until - now else 0
    |s.output_last_duration| - left
  else
    match s.output_time_turned_on with
    | some t0 => now - t0
    | none => 0

/-- C1 is false as stated: an ON request with output_type 'sec' and no
duration (amount None), issued on a set-up, currently-off output while
off_until = 100 lies in the future of now = 50, is not interlock-checked at
all: output_on_off returns code 0, invokes the driver ON, and sets
time_turned_on — the interlock gate of lines 212-228 fires only for
output_type 'on_off'. -/
theorem C1_counterexample :
    (50 : ℚ) < 100 ∧
    output_on_off ⟨false, false, true, true, true, false⟩
      { isSetup := true, physOn := false, output_on_until := 0,
        output_off_until := some 100, output_last_duration := 0,
        output_on_duration := false, output_off_triggered := false,
        output_time_turned_on := none }
      true (.pstr "on") (some "sec") none 0 false 50 1000 =
      .ok ⟨{ isSetup := true, physOn := true, output_on_until := 0,
             output_off_until := some 100, output_last_duration := 0,
             output_on_duration := false, output_off_triggered := false,
             output_time_turned_on := some 50 }, 0, .onAt 50,
           [⟨"on", some "sec", none⟩], [], none⟩ :=
  ⟨by decide, by rfl⟩

/-- C1 (amended): the minimum-off interlock applies exactly to ON requests
with output_type 'on_off' (when OUTPUT_INFORMATION declares output_types and
the output is reported off): while off_until lies strictly in the future the
call returns code 1 with a message carrying the remaining lockout seconds,
makes no driver call and leaves the state unchanged; once off_until has
elapsed the identical request returns code 0 (as a fall-through no-op that
matches no dispatch branch).  ON requests with output_type 'sec' or None are
never interlock-checked (see the counterexample). -/
theorem C1_interlock_only_on_off
    (cfg : OutputConfig) (s : OutputState) (driverOk : Bool) (state : StateArg)
    (amount_arg : Option ℚ) (min_off : ℚ) (trig : Bool) (now utc T : ℚ)
    (hOn : state.isOn = true) (hSetup : s.isSetup = true) (hPhys : s.physOn = false)
    (hInfo : cfg.infoHasOutputTypes = true) (hOffU : s.output_off_until = some T)
    (hAmt : amount_arg.getD 0 = 0) :
    (now < T →
      output_on_off cfg s driverOk state (some "on_off") amount_arg min_off trig now utc =
        .ok ⟨s, 1, .lockout (T - now), [], [], none⟩) ∧
    (T ≤ now →
      output_on_off cfg s driverOk state (some "on_off") amount_arg min_off trig now utc =
        .ok ⟨s, 0, .empty, [], [], if trig then some 0 else none⟩) := by
  constructor
  · intro hlt
    simp [output_on_off, hOn, hSetup, hPhys, hInfo, hOffU, hAmt, offUntilFuture,
      lockSeconds, secOrNone, hlt]
  · intro hle
    have hnl : ¬ (now < T) := not_lt.mpr hle
    simp [output_on_off, hOn, hSetup, hPhys, hInfo, hOffU, hAmt, offUntilFuture,
      lockSeconds, secOrNone, trigOpt, hnl]

theorem C1_interlock_only_on_off_witness :
    output_on_off ⟨false, false, true, true, true, false⟩
      { isSetup := true, physOn := false, output_on_until := 0,
        output_off_until := some 100, output_last_duration := 0,
        output_on_duration := false, output_off_triggered := false,
        output_time_turned_on := none }
      true (.pstr "on") (some "on_off") none 0 false 50 1000 =
      .ok ⟨{ isSetup := true, physOn := false, output_on_until := 0,
             output_off_until := some 100, output_last_duration := 0,
             output_on_duration := false, output_off_triggered := false,
             output_time_turned_on := none }, 1, .lockout (100 - 50), [], [], none⟩ := by
  refine (C1_interlock_only_on_off _ _ _ _ _ _ _ _ _ _ ?_ ?_ ?_ ?_ ?_ ?_).1 ?_ <;> decide

/-- C2: an ON request with output_type 'sec'/None and nonzero amount on an
output already on in duration mode makes no driver call, emits exactly one
DurationSample precisely when time_on = |last_duration| - remaining > 0
(magnitude time_on, sign following the just-updated last_duration = amount,
timestamp utcnow - time_on), updates last_duration to amount and on_until to
now + |amount| (and off_until when min_off is truthy), returns code 0, and
skips trigger evaluation (early return before line 410). -/
theorem C2_rearm_bookkeeping
    (cfg : OutputConfig) (s : OutputState) (driverOk : Bool) (state : StateArg)
    (output_type : Option String) (a min_off : ℚ) (trig : Bool) (now utc : ℚ)
    (remaining time_on : ℚ) (newOffUntil : Option ℚ)
    (hOn : state.isOn = true) (hSetup : s.isSetup = true) (hPhys : s.physOn = true)
    (hDur : s.output_on_duration = true) (hCap : cfg.capOnOff = true)
    (hType : output_type = some "sec" ∨ output_type = none) (hA : a ≠ 0)
    (hRem : remaining = if now < s.output_on_until then s.output_on_until - now else 0)
    (hTimeOn : time_on = |s.output_last_duration| - remaining)
    (hOffU : newOffUntil =
      if min_off ≠ 0 then some (now + |a| + min_off) else s.output_off_until) :
    output_on_off cfg s driverOk state output_type (some a) min_off trig now utc =
      .ok ⟨{ s with output_off_until := newOffUntil,
                    output_on_until := now + |a|,
                    output_last_duration := a },
        0, .rearm |s.output_last_duration| remaining time_on |a|,
        [],
        (if 0 < time_on then
          [⟨if a < 0 then -time_on else time_on, "duration_time", 0, utc - time_on⟩]
        else []),
        none⟩ := by
  subst hRem hTimeOn hOffU
  rcases hType with h | h <;> subst h <;>
    by_cases hmo : min_off = 0 <;>
    simp [output_on_off, secDurationBranch, hOn, hSetup, hPhys, hDur, hCap, hA,
      hmo, secOrNone] <;>
    split_ifs with h1 <;>
    try simp_all
  all_goals
    first
    | rfl
    | (rw [abs_sub_comm]; rw [abs_of_pos (by linarith)])
    | linarith

/-- Witness for C2 at a concrete re-arm: last_duration 10, 5 s remaining,
new amount 30. -/
theorem C2_rearm_bookkeeping_witness :
    output_on_off ⟨false, false, true, true, true, false⟩
      { isSetup := true, physOn := true, output_on_until := 105,
        output_off_until := none, output_last_duration := 10,
        output_on_duration := true, output_off_triggered := false,
        output_time_turned_on := none }
      true (.pstr "on") (some "sec") (some 30) 0 false 100 1000 =
      .ok ⟨{ isSetup := true, physOn := true, output_on_until := 130,
             output_off_until := none, output_last_duration := 30,
             output_on_duration := true, output_off_triggered := false,
             output_time_turned_on := none }, 0, .rearm 10 5 5 30, [],
           [⟨5, "duration_time", 0, 995⟩], none⟩ := by
  have h := C2_rearm_bookkeeping ⟨false, false, true, true, true, false⟩
    { isSetup := true, physOn := true, output_on_until := 105,
      output_off_until := none, output_last_duration := 10,
      output_on_duration := true, output_off_triggered := false,
      output_time_turned_on := none }
    true (.pstr "on") (some "sec") 30 0 false 100 1000 5 5 none
    rfl rfl rfl rfl rfl (Or.inl rfl) (by norm_num) (by norm_num) (by norm_num)
    (by norm_num)
  norm_num at h
  exact h

/-- After the OFF-branch bookkeeping, duration mode is always cleared. -/
lemma offReconcile_clears_duration (s1 : OutputState) (t u : ℚ) :
    ((offReconcile s1 t u).2).output_on_duration = false := by
  cases htto : s1.output_time_turned_on <;> cases hd : s1.output_on_duration <;>
    simp [offReconcile, htto, hd]

/-- The duration-ON block never touches time_turned_on. -/
lemma secDurationBranch_keeps_time_turned_on
    (s : OutputState) (driverOk : Bool) (amount min_off : ℚ)
    (trig : Option ℚ) (t u : ℚ) :
    (outcomeState (secDurationBranch s driverOk amount min_off trig t u)).output_time_turned_on
      = s.output_time_turned_on := by
  unfold secDurationBranch outcomeState
  by_cases hmo : min_off = 0 <;> by_cases hp : s.physOn = true <;>
    by_cases hd : s.output_on_duration = true <;>
    by_cases hdk : driverOk = true <;>
    simp [hmo, hp, hd, hdk]

/-- The plain-ON block never touches on_duration. -/
lemma plainOnBranch_keeps_on_duration
    (cfg : OutputConfig) (s : OutputState) (driverOk : Bool)
    (trig : Option ℚ) (t : ℚ) :
    (outcomeState (plainOnBranch cfg s driverOk trig t)).output_on_duration
      = s.output_on_duration := by
  unfold plainOnBranch outcomeState
  by_cases hp : s.physOn = true <;> by_cases hf : cfg.forceCommand = true <;>
    by_cases hdk : driverOk = true <;>
    cases htto : s.output_time_turned_on <;>
    simp [hp, hf, hdk, htto]

/-- The OFF block either clears duration mode or (driver raise) leaves the
state unchanged. -/
lemma offBranch_result (s : OutputState) (ot : Option String) (driverOk : Bool)
    (trig : Option ℚ) (t u : ℚ) :
    (outcomeState (offBranch s ot driverOk trig t u)).output_on_duration = false
    ∨ outcomeState (offBranch s ot driverOk trig t u) = s := by
  unfold offBranch outcomeState
  split_ifs
  · exact Or.inl (offReconcile_clears_duration _ _ _)
  · exact Or.inr rfl

set_option maxHeartbeats 2000000 in
/-- Mode exclusivity is preserved by every mode-safe call. -/
lemma step_preserves_modesExclusive (cfg : OutputConfig) (s : OutputState) (a : CallArgs)
    (hInv : modesExclusive s) (hSafe : safeStep s a) :
    modesExclusive (stepState cfg s a) := by
  unfold modesExclusive at hInv ⊢
  unfold safeStep at hSafe
  unfold stepState
  simp only [output_on_off]
  split_ifs <;>
    first
    | simpa [outcomeState] using hInv
    | -- the sec-duration branch: time_turned_on is none by mode-safety
      (rename_i hIsOn hgate hvol hpwm hcond
       exact fun hcon => hcon.2 (by
         rw [secDurationBranch_keeps_time_turned_on]
         exact (hSafe ⟨hIsOn, hcond.1⟩).1 hcond.2.2))
    | -- the plain-on branch: on_duration is false by mode-safety
      (rename_i hIsOn hgate hvol hpwm hsec hcond
       intro hcon
       have hd := hcon.1
       rw [plainOnBranch_keeps_on_duration,
         (hSafe ⟨hIsOn, hcond.2.2.2⟩).2 hcond.2.2.1] at hd
       exact Bool.false_ne_true hd)
    | -- the off branch: on_duration cleared, or state unchanged on raise
      (intro hcon
       rcases offBranch_result s a.output_type a.driverOk
          (trigOpt a.trigger_conditionals (a.amount_arg.getD 0))
          a.current_time a.utc_now with hod | heq
       · have hd := hcon.1
         rw [hod] at hd
         exact Bool.false_ne_true hd
       · rw [heq] at hcon
         exact hInv hcon)

/-- Mode exclusivity is preserved along every mode-safe trace. -/
lemma runTrace_preserves_modesExclusive (cfg : OutputConfig) :
    ∀ (trace : List CallArgs) (s : OutputState),
      modesExclusive s → safeTrace cfg s trace →
      modesExclusive (runTrace cfg s trace) := by
  intro trace
  induction trace with
  | nil => intro s h _; simpa [runTrace] using h
  | cons a rest ih =>
      intro s h hsafe
      simp only [safeTrace] at hsafe
      simp only [runTrace]
      exact ih _ (step_preserves_modesExclusive cfg s a h hsafe.1) hsafe.2

/-- C3 (amended): starting from the freshly set-up state, on_duration and
time_turned_on are never both set along any trace of output_on_off calls in
which no duration-ON is issued while time_turned_on is set and no plain ON is
issued while on_duration is set.  Without that restriction the invariant
fails (see the counterexample). -/
theorem C3_modes_exclusive_on_safe_traces
    (cfg : OutputConfig) (b p : Bool) (t0 : ℚ) (trace : List CallArgs)
    (hsafe : safeTrace cfg (setup_on_off_output b p t0) trace) :
    modesExclusive (runTrace cfg (setup_on_off_output b p t0) trace) :=
  runTrace_preserves_modesExclusive cfg trace _
    (by simp [modesExclusive, setup_on_off_output]) hsafe

/-- C3 is false as stated: from the freshly set-up state, a plain ON
(indefinite, sets time_turned_on = 10) followed by a timed ON ('sec', 30 s)
reaches a state with on_duration = true and time_turned_on = some 10
simultaneously — the convert-to-duration branch (lines 304-316) does not
clear time_turned_on. -/
theorem C3_counterexample :
    ¬ modesExclusive (runTrace ⟨false, false, true, true, true, false⟩
        (setup_on_off_output true false 0)
        [⟨true, .pstr "on", none, none, 0, false, 10, 0⟩,
         ⟨true, .pstr "on", some "sec", some 30, 0, false, 20, 0⟩]) ∧
    (runTrace ⟨false, false, true, true, true, false⟩
        (setup_on_off_output true false 0)
        [⟨true, .pstr "on", none, none, 0, false, 10, 0⟩,
         ⟨true, .pstr "on", some "sec", some 30, 0, false, 20, 0⟩]).output_on_duration
      = true ∧
    (runTrace ⟨false, false, true, true, true, false⟩
        (setup_on_off_output true false 0)
        [⟨true, .pstr "on", none, none, 0, false, 10, 0⟩,
         ⟨true, .pstr "on", some "sec", some 30, 0, false, 20, 0⟩]).output_time_turned_on
      = some 10 := by
  refine ⟨?_, ?_, ?_⟩ <;> decide

/-- Witness for C3 (amended) on a concrete one-call safe trace. -/
theorem C3_modes_exclusive_on_safe_traces_witness :
    safeTrace ⟨false, false, true, true, true, false⟩ (setup_on_off_output true false 0)
      [⟨true, .pstr "on", some "sec", some 30, 0, false, 10, 0⟩] ∧
    modesExclusive (runTrace ⟨false, false, true, true, true, false⟩
      (setup_on_off_output true false 0)
      [⟨true, .pstr "on", some "sec", some 30, 0, false, 10, 0⟩]) := by
  have hs : safeTrace ⟨false, false, true, true, true, false⟩
      (setup_on_off_output true false 0)
      [⟨true, .pstr "on", some "sec", some 30, 0, false, 10, 0⟩] :=
    ⟨fun _ => ⟨fun _ => rfl, fun _ => rfl⟩, trivial⟩
  exact ⟨hs, C3_modes_exclusive_on_safe_traces _ true false 0 _ hs⟩

/-- When the output is reported off, the duration-ON block that returns
normally reaches the trigger check. -/
lemma secDurationBranch_triggers_of_not_on
    (s : OutputState) (driverOk : Bool) (amount min_off : ℚ)
    (trig : Option ℚ) (t u : ℚ) (hp : s.physOn = false) :
    ∀ r, secDurationBranch s driverOk amount min_off trig t u = .ok r →
      r.triggers_checked = trig := by
  unfold secDurationBranch
  by_cases hmo : min_off = 0 <;> by_cases hdk : driverOk = true <;>
    simp [hp, hmo, hdk]

/-- A code-0 return of the plain-ON block reaches the trigger check. -/
lemma plainOnBranch_triggers (cfg : OutputConfig) (s : OutputState)
    (driverOk : Bool) (trig : Option ℚ) (t : ℚ) :
    ∀ r, plainOnBranch cfg s driverOk trig t = .ok r → r.code = 0 →
      r.triggers_checked = trig := by
  unfold plainOnBranch
  by_cases hp : s.physOn = true <;> by_cases hf : cfg.forceCommand = true <;>
    by_cases hdk : driverOk = true <;> cases htto : s.output_time_turned_on <;>
    simp [hp, hf, hdk, htto]

/-- A normal return of the OFF block reaches the trigger check. -/
lemma offBranch_triggers (s : OutputState) (ot : Option String) (driverOk : Bool)
    (trig : Option ℚ) (t u : ℚ) :
    ∀ r, offBranch s ot driverOk trig t u = .ok r → r.triggers_checked = trig := by
  unfold offBranch
  split_ifs <;> simp

set_option maxHeartbeats 2000000 in
/-- Any code-0 return outside the on-and-timed dispatch invoked
check_triggers with the call amount. -/
lemma output_on_off_triggers_aux
    (cfg : OutputConfig) (s : OutputState) (driverOk : Bool) (state : StateArg)
    (output_type : Option String) (amount_arg : Option ℚ) (min_off : ℚ) (now utc : ℚ)
    (hNotSecOn : ¬(state.isOn = true ∧ secOrNone output_type = true ∧
      cfg.capOnOff = true ∧ amount_arg.getD 0 ≠ 0 ∧ s.physOn = true)) :
    ∀ r, output_on_off cfg s driverOk state output_type amount_arg min_off true now utc
        = .ok r → r.code = 0 → r.triggers_checked = some (amount_arg.getD 0) := by
  simp only [output_on_off]
  split_ifs <;>
    first
    | (intro r hr hc; cases hr; simp [trigOpt]; done)
    | (intro r hr hc; cases hr; simp at hc; done)
    | (intro r hr hc; exact absurd hr (by simp))
    | (rename_i hIsOn hgate hvol hpwm hcond
       intro r hr hc
       have hp : s.physOn = false := by
         cases hphys : s.physOn
         · rfl
         · exact absurd ⟨hIsOn, hcond.1, hcond.2.1, hcond.2.2, hphys⟩ hNotSecOn
       simpa [trigOpt] using
         secDurationBranch_triggers_of_not_on _ _ _ _ _ _ _ hp r hr)
    | (intro r hr hc
       simpa [trigOpt] using plainOnBranch_triggers _ _ _ _ _ r hr hc)
    | (intro r hr hc
       simpa [trigOpt] using offBranch_triggers _ _ _ _ _ _ r hr)

/-- C4 (amended): with trigger_conditionals true, check_triggers runs with
the transition amount for every code-0 return except the two early-returning
duration sub-branches (re-arm and convert, both only reachable when the
output is reported on with output_type 'sec'/None and nonzero amount): those
return code 0 without trigger evaluation (see the counterexample). -/
theorem C4_triggers_on_completion
    (cfg : OutputConfig) (s : OutputState) (driverOk : Bool) (state : StateArg)
    (output_type : Option String) (amount_arg : Option ℚ) (min_off : ℚ) (now utc : ℚ)
    (hNotSecOn : ¬(state.isOn = true ∧ secOrNone output_type = true ∧
      cfg.capOnOff = true ∧ amount_arg.getD 0 ≠ 0 ∧ s.physOn = true))
    (hCode : outcomeCode (output_on_off cfg s driverOk state output_type amount_arg
      min_off true now utc) = some 0) :
    outcomeTriggers (output_on_off cfg s driverOk state output_type amount_arg
      min_off true now utc) = some (amount_arg.getD 0) := by
  rcases houtcome : output_on_off cfg s driverOk state output_type amount_arg
      min_off true now utc with r | ⟨st, sw⟩
  · rw [houtcome] at hCode
    simp only [outcomeCode, Option.some.injEq] at hCode
    simpa [outcomeTriggers] using
      output_on_off_triggers_aux cfg s driverOk state output_type amount_arg
        min_off now utc hNotSecOn r houtcome hCode
  · rw [houtcome] at hCode
    simp [outcomeCode] at hCode

/-- C4 is false as stated: a re-arm call (already on in duration mode,
amount 20) with trigger_conditionals = true returns code 0 yet never invokes
check_triggers — it returns at line 301, before the line-410 check. -/
theorem C4_counterexample :
    outcomeCode (output_on_off ⟨false, false, true, true, true, false⟩
      ⟨true, true, 105, none, 10, true, false, none⟩
      true (.pstr "on") (some "sec") (some 20) 0 true 100 1000) = some 0 ∧
    outcomeTriggers (output_on_off ⟨false, false, true, true, true, false⟩
      ⟨true, true, 105, none, 10, true, false, none⟩
      true (.pstr "on") (some "sec") (some 20) 0 true 100 1000) = none := by
  constructor <;> rfl

/-- Witness for C4 (amended): a fall-through ON request evaluates triggers
with its amount. -/
theorem C4_triggers_on_completion_witness :
    outcomeTriggers (output_on_off ⟨false, false, true, true, true, false⟩
      ⟨true, false, 0, none, 0, false, false, none⟩
      true (.pstr "on") (some "vol") (some 5) 0 true 3 4) = some 5 := by
  have h := C4_triggers_on_completion ⟨false, false, true, true, true, false⟩
    ⟨true, false, 0, none, 0, false, false, none⟩
    true (.pstr "on") (some "vol") (some 5) 0 3 4 (by decide) (by rfl)
  simpa using h

/-- A raise inside the duration-ON block leaves on_duration, on_until,
last_duration and off_triggered untouched (only off_until may have been
set). -/
lemma secDurationBranch_raised (s : OutputState) (driverOk : Bool)
    (amount min_off : ℚ) (trig : Option ℚ) (t u : ℚ) (st' : OutputState)
    (sw : List SwitchCall)
    (h : secDurationBranch s driverOk amount min_off trig t u = .raised st' sw) :
    st'.output_on_duration = s.output_on_duration ∧
    st'.output_on_until = s.output_on_until ∧
    st'.output_last_duration = s.output_last_duration ∧
    st'.output_off_triggered = s.output_off_triggered := by
  unfold secDurationBranch at h
  by_cases hmo : min_off = 0 <;> by_cases hp : s.physOn = true <;>
    by_cases hd : s.output_on_duration = true <;>
    by_cases hdk : driverOk = true <;>
    simp [hmo, hp, hd, hdk] at h <;>
    (obtain ⟨h1, h2⟩ := h; subst h1; simp_all)

/-- A raise inside the plain-ON block leaves on_duration, on_until,
last_duration and off_triggered untouched (only time_turned_on may have been
set). -/
lemma plainOnBranch_raised (cfg : OutputConfig) (s : OutputState)
    (driverOk : Bool) (trig : Option ℚ) (t : ℚ) (st' : OutputState)
    (sw : List SwitchCall)
    (h : plainOnBranch cfg s driverOk trig t = .raised st' sw) :
    st'.output_on_duration = s.output_on_duration ∧
    st'.output_on_until = s.output_on_until ∧
    st'.output_last_duration = s.output_last_duration ∧
    st'.output_off_triggered = s.output_off_triggered := by
  unfold plainOnBranch at h
  by_cases hp : s.physOn = true <;> by_cases hf : cfg.forceCommand = true <;>
    by_cases hdk : driverOk = true <;> cases htto : s.output_time_turned_on <;>
    simp [hp, hf, hdk, htto] at h <;>
    (obtain ⟨h1, h2⟩ := h; subst h1; simp_all)

/-- A raise inside the OFF block leaves the whole state untouched: the
driver call is its first action. -/
lemma offBranch_raised (s : OutputState) (ot : Option String) (driverOk : Bool)
    (trig : Option ℚ) (t u : ℚ) (st' : OutputState) (sw : List SwitchCall)
    (h : offBranch s ot driverOk trig t u = .raised st' sw) : st' = s := by
  unfold offBranch at h
  by_cases hdk : driverOk = true <;> simp [hdk] at h
  exact h.1.symm

set_option maxHeartbeats 2000000 in
/-- C5 (amended): when the driver invocation raises, no field assigned
after the driver call is updated — on_duration, on_until, last_duration and
off_triggered are exactly as before the call.  The claim's full list is
false: time_turned_on (plain-ON, line 350) and off_until (duration branch
with min_off, line 254) are assigned before the driver call and survive the
raise (see the counterexample). -/
theorem C5_raise_preserves_core_fields
    (cfg : OutputConfig) (s : OutputState) (driverOk : Bool) (state : StateArg)
    (output_type : Option String) (amount_arg : Option ℚ) (min_off : ℚ)
    (trigger_conditionals : Bool) (now utc : ℚ) (st' : OutputState)
    (sw : List SwitchCall)
    (hraised : output_on_off cfg s driverOk state output_type amount_arg min_off
      trigger_conditionals now utc = .raised st' sw) :
    st'.output_on_duration = s.output_on_duration ∧
    st'.output_on_until = s.output_on_until ∧
    st'.output_last_duration = s.output_last_duration ∧
    st'.output_off_triggered = s.output_off_triggered := by
  simp only [output_on_off] at hraised
  split_ifs at hraised <;>
    first
    | (exact CallOutcome.noConfusion hraised)
    | (cases hraised; exact ⟨rfl, rfl, rfl, rfl⟩)
    | (exact secDurationBranch_raised _ _ _ _ _ _ _ _ _ hraised)
    | (exact plainOnBranch_raised _ _ _ _ _ _ _ hraised)
    | (rw [offBranch_raised _ _ _ _ _ _ _ _ hraised]
       exact ⟨rfl, rfl, rfl, rfl⟩)

/-- C5 is false as stated: a plain ON whose driver call raises has already
set time_turned_on (none to some 50) before the raise — a runtime field was
updated by a failing call. -/
theorem C5_counterexample :
    output_on_off ⟨false, false, true, true, true, false⟩
      ⟨true, false, 7, none, 0, false, false, none⟩
      false (.pstr "on") none none 0 true 50 99 =
      .raised ⟨true, false, 7, none, 0, false, false, some 50⟩
        [⟨"on", some "sec", none⟩] ∧
    (outcomeState (output_on_off ⟨false, false, true, true, true, false⟩
      ⟨true, false, 7, none, 0, false, false, none⟩
      false (.pstr "on") none none 0 true 50 99)).output_time_turned_on ≠ none := by
  constructor
  · rfl
  · decide

/-- Witness for C5 (amended) at the concrete raising plain-ON call. -/
theorem C5_raise_preserves_core_fields_witness :
    (⟨true, false, 7, none, 0, false, false, some 50⟩ : OutputState).output_on_duration
        = (⟨true, false, 7, none, 0, false, false, none⟩ : OutputState).output_on_duration ∧
    (⟨true, false, 7, none, 0, false, false, some 50⟩ : OutputState).output_on_until
        = (⟨true, false, 7, none, 0, false, false, none⟩ : OutputState).output_on_until ∧
    (⟨true, false, 7, none, 0, false, false, some 50⟩ : OutputState).output_last_duration
        = (⟨true, false, 7, none, 0, false, false, none⟩ : OutputState).output_last_duration ∧
    (⟨true, false, 7, none, 0, false, false, some 50⟩ : OutputState).output_off_triggered
        = (⟨true, false, 7, none, 0, false, false, none⟩ : OutputState).output_off_triggered :=
  C5_raise_preserves_core_fields ⟨false, false, true, true, true, false⟩
    ⟨true, false, 7, none, 0, false, false, none⟩
    false (.pstr "on") none none 0 true 50 99
    ⟨true, false, 7, none, 0, false, false, some 50⟩
    [⟨"on", some "sec", none⟩] rfl

/-- C6: every OFF request on a set-up output (any off token, any
interlock/off_until value, any on-mode) with a non-raising driver performs
exactly one driver call output_switch('off', output_type), leaves
off_triggered = false, and returns code 0. -/
theorem C6_off_always_switches_and_clears
    (cfg : OutputConfig) (s : OutputState) (state : StateArg)
    (output_type : Option String) (amount_arg : Option ℚ) (min_off : ℚ)
    (trigger_conditionals : Bool) (now utc : ℚ)
    (hOff : state.isOff = true) (hOn : state.isOn = false)
    (hSetup : s.isSetup = true) :
    outcomeSwitches (output_on_off cfg s true state output_type amount_arg
      min_off trigger_conditionals now utc) = [⟨"off", output_type, none⟩] ∧
    (outcomeState (output_on_off cfg s true state output_type amount_arg
      min_off trigger_conditionals now utc)).output_off_triggered = false ∧
    outcomeCode (output_on_off cfg s true state output_type amount_arg
      min_off trigger_conditionals now utc) = some 0 := by
  simp [output_on_off, hOff, hOn, hSetup, offBranch, outcomeSwitches,
    outcomeState, outcomeCode]

/-- Witness for C6 on a state with an active interlock, duration mode on
and off_triggered latched. -/
theorem C6_off_always_switches_and_clears_witness :
    outcomeSwitches (output_on_off ⟨false, false, true, true, true, false⟩
      ⟨true, true, 9, some 40, 3, true, true, none⟩
      true (.pstr "off") (some "sec") none 0 true 5 6) = [⟨"off", some "sec", none⟩] ∧
    (outcomeState (output_on_off ⟨false, false, true, true, true, false⟩
      ⟨true, true, 9, some 40, 3, true, true, none⟩
      true (.pstr "off") (some "sec") none 0 true 5 6)).output_off_triggered = false ∧
    outcomeCode (output_on_off ⟨false, false, true, true, true, false⟩
      ⟨true, true, 9, some 40, 3, true, true, none⟩
      true (.pstr "off") (some "sec") none 0 true 5 6) = some 0 :=
  C6_off_always_switches_and_clears ⟨false, false, true, true, true, false⟩
    ⟨true, true, 9, some 40, 3, true, true, none⟩
    (.pstr "off") (some "sec") none 0 true 5 6 rfl rfl rfl

/-- C7 (amended): for an OFF request with time_turned_on unset: if in
duration mode, exactly one DurationSample is emitted with value
elapsed = |last_duration| - remaining sign-matched to last_duration and
timestamp utcnow - elapsed, and duration mode is cleared (on_duration false,
on_until = now); if not in duration mode, no sample is emitted.  The
qualification time_turned_on = none is necessary: in the reachable state
with both modes set, the indefinite-mode sample overwrites the duration one
(see the counterexample). -/
theorem C7_off_duration_reconcile
    (cfg : OutputConfig) (s : OutputState) (state : StateArg)
    (output_type : Option String) (amount_arg : Option ℚ) (min_off : ℚ)
    (trigger_conditionals : Bool) (now utc remaining elapsed : ℚ)
    (hOff : state.isOff = true) (hOn : state.isOn = false)
    (hSetup : s.isSetup = true) (hTto : s.output_time_turned_on = none)
    (hRem : remaining = if now < s.output_on_until then s.output_on_until - now else 0)
    (hElapsed : elapsed = |s.output_last_duration| - remaining) :
    (s.output_on_duration = true →
      outcomeSamples (output_on_off cfg s true state output_type amount_arg
        min_off trigger_conditionals now utc) =
        [⟨if s.output_last_duration < 0 then -elapsed else elapsed,
          "duration_time", 0, utc - elapsed⟩] ∧
      (outcomeState (output_on_off cfg s true state output_type amount_arg
        min_off trigger_conditionals now utc)).output_on_duration = false ∧
      (outcomeState (output_on_off cfg s true state output_type amount_arg
        min_off trigger_conditionals now utc)).output_on_until = now) ∧
    (s.output_on_duration = false →
      outcomeSamples (output_on_off cfg s true state output_type amount_arg
        min_off trigger_conditionals now utc) = []) := by
  subst hRem hElapsed
  constructor
  · intro hDur
    simp [output_on_off, hOff, hOn, hSetup, hTto, hDur, offBranch, offReconcile,
      outcomeSamples, outcomeState]
  · intro hDur
    simp [output_on_off, hOff, hOn, hSetup, hTto, hDur, offBranch, offReconcile,
      outcomeSamples]

/-- C7 is false as stated: in a reachable state with on_duration = true
and time_turned_on = some 10 (see the C3 counterexample), an OFF at now = 100
emits the indefinite-run sample (value 90, timestamp 910), not the
duration-mode sample the claim requires (value 10, timestamp 990) — the
time_turned_on block overwrites duration_sec and timestamp. -/
theorem C7_counterexample :
    outcomeSamples (output_on_off ⟨false, false, true, true, true, false⟩
      ⟨true, true, 120, none, 30, true, false, some 10⟩
      true (.pstr "off") none none 0 false 100 1000) =
      [⟨90, "duration_time", 0, 910⟩] ∧
    outcomeSamples (output_on_off ⟨false, false, true, true, true, false⟩
      ⟨true, true, 120, none, 30, true, false, some 10⟩
      true (.pstr "off") none none 0 false 100 1000) ≠
      [⟨10, "duration_time", 0, 990⟩] := by
  constructor
  · norm_num [output_on_off, offBranch, offReconcile, outcomeSamples,
      StateArg.isOn, StateArg.isOff, secOrNone, trigOpt]
    decide
  · norm_num [output_on_off, offBranch, offReconcile, outcomeSamples,
      StateArg.isOn, StateArg.isOff, secOrNone, trigOpt]
    decide

/-- Witness for C7 (amended) with a negative last_duration (-25) and 20 s
remaining. -/
theorem C7_off_duration_reconcile_witness :
    ((⟨true, true, 130, none, -25, true, false, none⟩ : OutputState).output_on_duration = true →
      outcomeSamples (output_on_off ⟨false, false, true, true, true, false⟩
        ⟨true, true, 130, none, -25, true, false, none⟩
        true (.pstr "off") none none 0 false 110 1000) =
        [⟨if (⟨true, true, 130, none, -25, true, false, none⟩ : OutputState).output_last_duration < 0
            then -(5 : ℚ) else 5, "duration_time", 0, 1000 - 5⟩] ∧
      (outcomeState (output_on_off ⟨false, false, true, true, true, false⟩
        ⟨true, true, 130, none, -25, true, false, none⟩
        true (.pstr "off") none none 0 false 110 1000)).output_on_duration = false ∧
      (outcomeState (output_on_off ⟨false, false, true, true, true, false⟩
        ⟨true, true, 130, none, -25, true, false, none⟩
        true (.pstr "off") none none 0 false 110 1000)).output_on_until = 110) ∧
    ((⟨true, true, 130, none, -25, true, false, none⟩ : OutputState).output_on_duration = false →
      outcomeSamples (output_on_off ⟨false, false, true, true, true, false⟩
        ⟨true, true, 130, none, -25, true, false, none⟩
        true (.pstr "off") none none 0 false 110 1000) = []) :=
  C7_off_duration_reconcile ⟨false, false, true, true, true, false⟩
    ⟨true, true, 130, none, -25, true, false, none⟩
    (.pstr "off") none none 0 false 110 1000 20 5
    rfl rfl rfl rfl (by norm_num) (by norm_num)

/-- C8 is false as stated: re-arming an output that was running under
last_duration = +10 with a new negative amount -20 emits the elapsed-portion
sample with value -5 — the sign of the newly requested amount, because
line 278 updates output_last_duration before the line-285 sign check — not
the +5 the pre-re-arm last_duration would give. -/
theorem C8_counterexample :
    outcomeSamples (output_on_off ⟨false, false, true, true, true, false⟩
      ⟨true, true, 105, none, 10, true, false, none⟩
      true (.pstr "on") (some "sec") (some (-20)) 0 false 100 1000) =
      [⟨-5, "duration_time", 0, 995⟩] ∧
    outcomeSamples (output_on_off ⟨false, false, true, true, true, false⟩
      ⟨true, true, 105, none, 10, true, false, none⟩
      true (.pstr "on") (some "sec") (some (-20)) 0 false 100 1000) ≠
      [⟨5, "duration_time", 0, 995⟩] := by
  constructor
  · norm_num [output_on_off, secDurationBranch, outcomeSamples,
      StateArg.isOn, StateArg.isOff, secOrNone, trigOpt]
  · norm_num [output_on_off, secDurationBranch, outcomeSamples,
      StateArg.isOn, StateArg.isOff, secOrNone, trigOpt]

/-- C8 (amended): the DurationSample emitted at re-arm has magnitude
time_on computed from the pre-re-arm last_duration, but its sign follows the
newly requested amount (the last_duration already updated at emission time);
the pre-re-arm sign is preserved only when the two amounts agree in sign. -/
theorem C8_rearm_sample_follows_new_amount
    (cfg : OutputConfig) (s : OutputState) (driverOk : Bool) (state : StateArg)
    (output_type : Option String) (a min_off : ℚ) (trig : Bool) (now utc : ℚ)
    (remaining time_on : ℚ)
    (hOn : state.isOn = true) (hSetup : s.isSetup = true) (hPhys : s.physOn = true)
    (hDur : s.output_on_duration = true) (hCap : cfg.capOnOff = true)
    (hType : output_type = some "sec" ∨ output_type = none) (hA : a ≠ 0)
    (hRem : remaining = if now < s.output_on_until then s.output_on_until - now else 0)
    (hTimeOn : time_on = |s.output_last_duration| - remaining)
    (hPos : 0 < time_on) :
    outcomeSamples (output_on_off cfg s driverOk state output_type (some a)
      min_off trig now utc) =
      [⟨if a < 0 then -time_on else time_on, "duration_time", 0, utc - time_on⟩] := by
  have habs : ∀ x y : ℚ, 0 < y - x → |if a < 0 then x - y else y - x| = y - x := by
    intro x y h
    split_ifs with hneg
    · rw [show x - y = -(y - x) by ring, abs_neg, abs_of_pos h]
    · exact abs_of_pos h
  subst hRem hTimeOn
  rcases hType with h | h <;> subst h <;>
    by_cases hmo : min_off = 0 <;>
    simp [output_on_off, secDurationBranch, secOrNone, outcomeSamples, hOn,
      hSetup, hPhys, hDur, hCap, hA, hmo, hPos, habs _ _ hPos]

/-- Witness for C8 (amended): old last_duration +10, new amount -20,
sample value -5. -/
theorem C8_rearm_sample_follows_new_amount_witness :
    outcomeSamples (output_on_off ⟨false, false, true, true, true, false⟩
      ⟨true, true, 105, none, 10, true, false, none⟩
      true (.pstr "on") (some "sec") (some (-20)) 0 false 100 1000) =
      [⟨if (-20 : ℚ) < 0 then -(5 : ℚ) else 5, "duration_time", 0, 1000 - 5⟩] :=
  C8_rearm_sample_follows_new_amount ⟨false, false, true, true, true, false⟩
    ⟨true, true, 105, none, 10, true, false, none⟩
    true (.pstr "on") (some "sec") (-20) 0 false 100 1000 5 5
    rfl rfl rfl rfl rfl (Or.inl rfl) (by norm_num) (by norm_num) (by norm_num)
    (by norm_num)

/-- C9: with the output reported ON, an active trigger_output rule of kind
on_duration_greater_than bound to this output is dispatched exactly once if
the transition amount exceeds the rule threshold, and not at all otherwise;
the comparison uses the call amount, not any persisted state. -/
theorem C9_on_duration_greater_than
    (t : Trigger) (self_id : String) (duty : DutyVal) (amount : ℚ)
    (hTT : t.trigger_type = "trigger_output") (hUid : t.unique_id_1 = self_id)
    (hAct : t.is_activated = true)
    (hOS : t.output_state = "on_duration_greater_than") :
    (check_triggers [t] self_id true duty amount).length =
      if t.output_duration < amount then 1 else 0 := by
  simp [check_triggers, onDurationKinds, pwmMatch, hTT, hUid, hAct, hOS]
  split_ifs with hgt <;>
    simp [List.filter_cons, onDurationMatch, hOS, hgt]

/-- Witness for C9 at threshold 15: amount 20 gives one dispatch, amount
10 gives none (the example of the spec). -/
theorem C9_on_duration_greater_than_witness :
    (check_triggers [⟨"t1", "n1", "trigger_output", "o1", true,
        "on_duration_greater_than", 15, 0⟩] "o1" true .off 20).length = 1 ∧
    (check_triggers [⟨"t1", "n1", "trigger_output", "o1", true,
        "on_duration_greater_than", 15, 0⟩] "o1" true .off 10).length = 0 := by
  have h1 := C9_on_duration_greater_than
    ⟨"t1", "n1", "trigger_output", "o1", true, "on_duration_greater_than", 15, 0⟩
    "o1" .off 20 rfl rfl rfl rfl
  have h2 := C9_on_duration_greater_than
    ⟨"t1", "n1", "trigger_output", "o1", true, "on_duration_greater_than", 15, 0⟩
    "o1" .off 10 rfl rfl rfl rfl
  constructor
  · rw [h1]; decide
  · rw [h2]; decide

/-- C10: an ON request whose output_type matches no dispatch branch (here
'vol' on an output without the volume capability) performs no driver call,
emits no sample, changes no state, still runs the trigger evaluator with the
amount, and returns code 0 with an empty message. -/
theorem C10_unmatched_on_request_is_accepted_noop :
    output_on_off ⟨false, false, true, true, true, false⟩
      ⟨true, false, 0, none, 0, false, false, none⟩
      true (.pstr "on") (some "vol") (some 5) 0 true 3 4 =
      .ok ⟨⟨true, false, 0, none, 0, false, false, none⟩, 0, .empty, [], [],
        some 5⟩ := by
  rfl
